import Mathlib

/-!
# Verification of the Procurement Dashboard core logic

Shallow embedding of the pure computational layer of the repository
(`scripts/viz.py` and `scripts/data_gen.py`): KPI back-calculation,
currency formatting, donut remainder synthesis, axis-range derivation,
the forecast continuity join, and the (hard-coded) data generator.
Python floats are modelled as exact rationals (`ℚ`), Python `int`
results as `ℤ`, and Python strings as Lean `String`.
-/

/-- Python `int(q)` for a rational `q`: truncation toward zero
(`viz.py` uses `int(val)` in both currency formatters). -/
def pyInt (q : ℚ) : ℤ := if 0 ≤ q then ⌊q⌋ else ⌈q⌉

/-- Helper for the `,` thousands grouping of Python `f"{n:,}"`:
operates on the reversed digit list, inserting a comma after every
three digits (counted from the least significant end). -/
def commifyRev : List Char → List Char
  | a :: b :: c :: d :: rest => a :: b :: c :: ',' :: commifyRev (d :: rest)
  | l => l

/-- Python `f"{n:,}"` for a natural number `n`: decimal digits with a
comma every three digits from the right. -/
def commify (n : ℕ) : String :=
  String.mk ((commifyRev (Nat.toDigits 10 n).reverse).reverse)

/-- `viz.py` line 41: `fmtd(val) = f"${int(val):,}"`.  Python formats a
negative integer as a minus sign followed by the grouped digits of its
absolute value. -/
def fmtd (val : ℚ) : String :=
  "$" ++ ((if pyInt val < 0 then "-" else "") ++ commify (pyInt val).natAbs)

/-- `viz.py` lines 44-47: `sign = "-" if val < 0 else ""` followed by
`f"{sign}${abs(int(val)):,}"`. -/
def fmtd_signed (val : ℚ) : String :=
  (if val < 0 then "-" else "") ++ ("$" ++ commify (pyInt val).natAbs)

/-- `viz.py` lines 49-51: `denom = 1 + pct_change / 100.0`;
`return current / denom if denom else current`. -/
def back_calc_previous (current pct_change : ℚ) : ℚ :=
  if 1 + pct_change / 100 = 0 then current else current / (1 + pct_change / 100)

/-- `viz.py` lines 59-61 (inside `make_kpi_donut`):
`remainder = abs(prev - current)`; when that is `0` it is replaced by
`max(current * 0.05, 1)`. -/
def donutRemainder (current prev : ℚ) : ℚ :=
  if |prev - current| = 0 then max (current * 0.05) 1 else |prev - current|

/-- `viz.py` line 74: the `values=[current, remainder]` pair handed to
the donut pie trace. -/
def donutValues (current prev : ℚ) : List ℚ :=
  [current, donutRemainder current prev]

/-- `pandas.Series.max` for a nonempty series of rationals (the
dashboard only ever aggregates nonempty data; pandas has no numeric
max for an empty series, so the `[]` case is an arbitrary default and
every theorem below assumes nonemptiness). -/
def listMax : List ℚ → ℚ
  | [] => 0
  | x :: xs => xs.foldl max x

/-- Python `list(range(start, stop, step))` for a positive `step`. -/
def pyRange (start stop step : ℤ) : List ℤ :=
  (List.range (((stop - start).toNat + (step.toNat - 1)) / step.toNat)).map
    (fun (i : ℕ) => start + step * (i : ℤ))

/-- `viz.py` lines 196-197: `ymax = int(np.ceil(max/10000.0)*10000)`
followed by `ymax = max(ymax, 60000)`, applied to the per-month
aggregated totals of the stacked bar chart. -/
def stackedYmax (totals : List ℚ) : ℤ :=
  max (⌈listMax totals / 10000⌉ * 10000) 60000

/-- `viz.py` line 198: `tickvals = list(range(0, ymax + 1, 10000))`. -/
def stackedTicks (totals : List ℚ) : List ℤ :=
  pyRange 0 (stackedYmax totals + 1) 10000

/-- `viz.py` line 307: `data_max = max(roi.max(), fcst.max(),
last_roi_value)` where `last_roi_value` is the last entry of the
actuals column; `none` when the actuals series is empty. -/
def roiDataMax (roiVals fcstVals : List ℚ) : Option ℚ :=
  (roiVals.getLast?).map
    (fun last => max (max (listMax roiVals) (listMax fcstVals)) last)

/-- `viz.py` line 308: `ymax = 40000 if data_max <= 40000 else
int(np.ceil(data_max/5000.0)*5000)`. -/
def roiYmax (dataMax : ℚ) : ℤ :=
  if dataMax ≤ 40000 then 40000 else ⌈dataMax / 5000⌉ * 5000

/-- `viz.py` line 309: `ymin = 10000`. -/
def roiYmin : ℤ := 10000

/-- `viz.py` line 310: `tickvals = list(range(ymin, ymax + 1, 5000))`. -/
def roiTickvals (ymax : ℤ) : List ℤ :=
  pyRange roiYmin (ymax + 1) 5000

/-- `viz.py` lines 272-275: `fcst_x = [last_roi_month] + forecast_months`
and `fcst_y = [last_roi_value] + forecast_values`, paired up as the
`(x, y)` points of the rendered forecast scatter trace; `none` when the
actuals series is empty (Python would raise an IndexError there). -/
def renderedForecast (roi fcst : List (String × ℚ)) : Option (List (String × ℚ)) :=
  ((roi.map Prod.fst).getLast?).bind (fun lastMonth =>
    ((roi.map Prod.snd).getLast?).map (fun lastValue =>
      (lastMonth :: fcst.map Prod.fst).zip (lastValue :: fcst.map Prod.snd)))

/-- The five tables written by `data_gen.py`:`main`. -/
structure GenOutput where
  kpis : List (String × ℚ)
  savings : List (String × ℚ)
  monthly : List (String × String × ℚ)
  roi : List (String × ℚ)
  forecast : List (String × ℚ)

/-- `data_gen.py` lines 66-73: the department iteration order of the
monthly-records loop. -/
def dept_order : List String :=
  ["Transmissions", "Sensors", "Other", "Machine", "Forklift", "Batteries"]

/-- `data_gen.py` lines 75-102: the hard-coded month-by-department
savings table, in insertion order. -/
def monthly_data : List (String × List (String × ℚ)) :=
  [("Mar 2022", [("Transmissions", 1902), ("Sensors", 2975), ("Other", 3468),
      ("Machine", 6205), ("Forklift", 4406), ("Batteries", 1405)]),
   ("Apr 2022", [("Transmissions", 6261), ("Sensors", 10495), ("Other", 4046),
      ("Machine", 6284), ("Forklift", 6446), ("Batteries", 5231)]),
   ("May 2022", [("Transmissions", 13257), ("Sensors", 2827), ("Other", 10726),
      ("Machine", 6753), ("Forklift", 7032), ("Batteries", 10240)]),
   ("Jun 2022", [("Transmissions", 4383), ("Sensors", 5990), ("Other", 8505),
      ("Machine", 8041), ("Forklift", 8872), ("Batteries", 10572)]),
   ("Jul 2022", [("Transmissions", 11684), ("Sensors", 11022), ("Other", 7536),
      ("Machine", 8935), ("Forklift", 5728), ("Batteries", 11509)]),
   ("Aug 2022", [("Transmissions", 7680), ("Sensors", 8429), ("Other", 6317),
      ("Machine", 6491), ("Forklift", 4994), ("Batteries", 7167)]),
   ("Sep 2022", [("Transmissions", 9415), ("Sensors", 5890), ("Other", 8829),
      ("Machine", 9450), ("Forklift", 7755), ("Batteries", 6492)]),
   ("Oct 2022", [("Transmissions", 5858), ("Sensors", 12772), ("Other", 7769),
      ("Machine", 6415), ("Forklift", 7677), ("Batteries", 13641)]),
   ("Nov 2022", [("Transmissions", 11993), ("Sensors", 5290), ("Other", 9131),
      ("Machine", 6481), ("Forklift", 4274), ("Batteries", 9542)]),
   ("Dec 2022", [("Transmissions", 2829), ("Sensors", 5479), ("Other", 5896),
      ("Machine", 6085), ("Forklift", 9988), ("Batteries", 10750)]),
   ("Jan 2023", [("Transmissions", 11413), ("Sensors", 3471), ("Other", 8423),
      ("Machine", 9068), ("Forklift", 8813), ("Batteries", 7026)]),
   ("Feb 2023", [("Transmissions", 8750), ("Sensors", 7140), ("Other", 3964),
      ("Machine", 4200), ("Forklift", 7050), ("Batteries", 7495)]),
   ("Mar 2023", [("Transmissions", 2040), ("Sensors", 2321), ("Other", 6376),
      ("Machine", 4468), ("Forklift", 2292), ("Batteries", 1463)])]

/-- `data_gen.py`:`main(seed)`.  The seed only feeds `np.random.seed`;
no random draw ever happens, so every table below is a hard-coded
constant and the result does not depend on `seed`. -/
def dataGenMain (seed : ℤ) : GenOutput :=
  { kpis := [("cost_of_material", 10556), ("pct_change_material", -54.90),
             ("cost_of_avoidance", 6279), ("pct_change_avoidance", -54.42),
             ("savings", 16976), ("pct_change_savings", -55.50)],
    savings := [("Transmissions", 97465), ("Sensors", 84101), ("Other", 90986),
                ("Machine", 88876), ("Forklift", 85327), ("Batteries", 102533)],
    monthly := monthly_data.flatMap (fun md =>
      dept_order.map (fun d => (md.1, d, (List.lookup d md.2).getD 0))),
    roi := (["Mar 2022", "Apr 2022", "May 2022", "Jun 2022", "Jul 2022",
             "Aug 2022", "Sep 2022", "Oct 2022", "Nov 2022", "Dec 2022",
             "Jan 2023", "Feb 2023", "Mar 2023"]).zip
            [15100, 25000, 35000, 28000, 36000, 25300, 29000, 37000, 29000,
             28500, 28700, 24800, 12000],
    forecast := (["Apr 2023", "May 2023", "Jun 2023", "Jul 2023", "Aug 2023",
                  "Sep 2023"]).zip [21000, 22000, 18800, 23000, 16000, 13500] }

/-! ## Helper lemmas -/

theorem str_empty_append (s : String) : "" ++ s = s := by
  cases s
  rfl

theorem pyInt_natCast (n : ℕ) : pyInt (n : ℚ) = n := by
  unfold pyInt
  rw [if_pos (by positivity)]
  exact_mod_cast Int.floor_natCast n

theorem pyRange_eq_map (a s : ℤ) (n : ℕ) (hs : 0 < s) :
    pyRange a (a + s * n + 1) s =
      (List.range (n + 1)).map (fun (i : ℕ) => a + s * (i : ℤ)) := by
  obtain ⟨m, rfl⟩ : ∃ m : ℕ, s = (m : ℤ) := ⟨s.toNat, (Int.toNat_of_nonneg hs.le).symm⟩
  have hm : 0 < m := by exact_mod_cast hs
  unfold pyRange
  have h1 : a + (m : ℤ) * n + 1 - a = ((m * n + 1 : ℕ) : ℤ) := by push_cast; ring
  rw [h1, Int.toNat_natCast, Int.toNat_natCast]
  have h3 : m * n + 1 + (m - 1) = m * (n + 1) := by
    have h4 : 1 + (m - 1) = m := by omega
    calc m * n + 1 + (m - 1) = m * n + (1 + (m - 1)) := by rw [Nat.add_assoc]
      _ = m * n + m := by rw [h4]
      _ = m * (n + 1) := by rw [Nat.mul_succ]
  rw [h3, Nat.mul_div_cancel_left _ hm]

theorem mem_pyRange_iff (a s z : ℤ) (n : ℕ) (hs : 0 < s) :
    z ∈ pyRange a (a + s * n + 1) s ↔ a ≤ z ∧ z ≤ a + s * n ∧ s ∣ (z - a) := by
  rw [pyRange_eq_map a s n hs, List.mem_map]
  constructor
  · rintro ⟨i, hi, rfl⟩
    rw [List.mem_range] at hi
    have hin : (i : ℤ) ≤ (n : ℤ) := by exact_mod_cast Nat.lt_succ_iff.mp hi
    have hnn : (0 : ℤ) ≤ s * (i : ℤ) := mul_nonneg hs.le (Nat.cast_nonneg i)
    have hmul : s * (i : ℤ) ≤ s * n := mul_le_mul_of_nonneg_left hin hs.le
    exact ⟨le_add_of_nonneg_right hnn, by linarith, ⟨i, by ring⟩⟩
  · rintro ⟨ha, hb, k, hk⟩
    have h0k : 0 ≤ k := by
      have hsk : s * 0 ≤ s * k := by rw [mul_zero]; linarith
      exact le_of_mul_le_mul_left hsk hs
    have hkn : k ≤ (n : ℤ) := by
      have hsk : s * k ≤ s * n := by linarith
      exact le_of_mul_le_mul_left hsk hs
    refine ⟨k.toNat, ?_, ?_⟩
    · rw [List.mem_range]
      omega
    · rw [Int.toNat_of_nonneg h0k]
      linarith

theorem mem_pyRange_dvd (a s ymax z : ℤ) (hs : 0 < s) (ha : a ≤ ymax)
    (hdvd : s ∣ ymax - a) :
    z ∈ pyRange a (ymax + 1) s ↔ a ≤ z ∧ z ≤ ymax ∧ s ∣ (z - a) := by
  obtain ⟨n, hn⟩ := hdvd
  have h0n : 0 ≤ n := by
    have hsn : s * 0 ≤ s * n := by rw [mul_zero]; linarith
    exact le_of_mul_le_mul_left hsn hs
  have hy : ymax = a + s * ((n.toNat : ℕ) : ℤ) := by
    rw [Int.toNat_of_nonneg h0n]; linarith
  rw [hy]
  exact mem_pyRange_iff a s z n.toNat hs

/-! ## Claim theorems -/

/-- C1: for every `current` and `pct_change` with `pct_change ≠ -100`,
`back_calc_previous` returns `current / (1 + pct_change/100)`; for
`pct_change = -100` (the zero-denominator case) it returns `current`
unchanged, so no division error can arise. -/
theorem back_calc_previous_spec (current pct_change : ℚ) :
    (pct_change ≠ -100 →
      back_calc_previous current pct_change = current / (1 + pct_change / 100)) ∧
    (pct_change = -100 → back_calc_previous current pct_change = current) := by
  constructor
  · intro h
    have hd : ¬ ((1 : ℚ) + pct_change / 100 = 0) := fun h0 => h (by linarith)
    unfold back_calc_previous
    rw [if_neg hd]
  · intro h
    subst h
    unfold back_calc_previous
    rw [if_pos (by norm_num)]

/-- Witness for C1 at `current = 50, pct_change = -50` (regular case)
and `current = 7, pct_change = -100` (guarded case). -/
theorem back_calc_previous_spec_witness :
    back_calc_previous 50 (-50) = 100 ∧ back_calc_previous 7 (-100) = 7 := by
  constructor
  · have h := (back_calc_previous_spec 50 (-50)).1 (by norm_num)
    rw [h]
    norm_num
  · exact (back_calc_previous_spec 7 (-100)).2 rfl

/-- C2: for a nonempty totals list, the stacked-bar `ymax` is
`⌈max/10000⌉*10000` floored at `60000`, the tick values are exactly the
multiples of `10000` from `0` to `ymax`, and a totals maximum of `5000`
yields `ymax = 60000`. -/
theorem stacked_axis (totals : List ℚ) (h : totals ≠ []) :
    stackedYmax totals = max (⌈listMax totals / 10000⌉ * 10000) 60000 ∧
    60000 ≤ stackedYmax totals ∧
    (∀ z : ℤ, z ∈ stackedTicks totals ↔
      0 ≤ z ∧ z ≤ stackedYmax totals ∧ (10000 : ℤ) ∣ z) ∧
    (listMax totals = 5000 → stackedYmax totals = 60000) := by
  have h60 : (60000 : ℤ) ≤ stackedYmax totals := le_max_right _ _
  refine ⟨rfl, h60, ?_, ?_⟩
  · intro z
    have hdvd : (10000 : ℤ) ∣ stackedYmax totals := by
      unfold stackedYmax
      rcases max_choice (⌈listMax totals / 10000⌉ * 10000) (60000 : ℤ) with hc | hc
      · rw [hc]; exact dvd_mul_left 10000 _
      · rw [hc]; norm_num
    have h0 : (0 : ℤ) ≤ stackedYmax totals := le_trans (by norm_num) h60
    have hiff := mem_pyRange_dvd 0 10000 (stackedYmax totals) z (by norm_num) h0
      (by simpa using hdvd)
    unfold stackedTicks
    rw [hiff]
    simp
  · intro h5
    have hc : (⌈(5000 : ℚ) / 10000⌉ : ℤ) = 1 := by norm_num [Int.ceil_eq_iff]
    unfold stackedYmax
    rw [h5, hc]
    norm_num

/-- Witness for C2 at the singleton totals list `[5000]`. -/
theorem stacked_axis_witness :
    stackedYmax [(5000 : ℚ)] = 60000 ∧ (30000 : ℤ) ∈ stackedTicks [(5000 : ℚ)] := by
  have h := stacked_axis [(5000 : ℚ)] (by simp)
  have h60 : stackedYmax [(5000 : ℚ)] = 60000 := h.2.2.2 rfl
  exact ⟨h60, (h.2.2.1 30000).mpr ⟨by norm_num, by rw [h60]; norm_num, by norm_num⟩⟩

/-- C3 counterexample: for a totals maximum of `42000` the code's
`ymax` is not `50000` (the `60000` floor applies). -/
theorem stacked_axis_42000_cex : stackedYmax [(42000 : ℚ)] ≠ 50000 := by
  have hc : (⌈(42000 : ℚ) / 10000⌉ : ℤ) = 5 := by norm_num [Int.ceil_eq_iff]
  unfold stackedYmax
  rw [show listMax [(42000 : ℚ)] = 42000 from rfl, hc]
  norm_num

/-- C3 amended: for a totals maximum of `42000`, the stacked-bar axis
derivation yields `ymax = 60000` (the `60000` floor overrides the
rounded-up `50000`) with ticks at every multiple of `10000` up to
`60000`. -/
theorem stacked_axis_42000 :
    stackedYmax [(42000 : ℚ)] = 60000 ∧
    stackedTicks [(42000 : ℚ)] = [0, 10000, 20000, 30000, 40000, 50000, 60000] := by
  have hc : (⌈(42000 : ℚ) / 10000⌉ : ℤ) = 5 := by norm_num [Int.ceil_eq_iff]
  have hy : stackedYmax [(42000 : ℚ)] = 60000 := by
    unfold stackedYmax
    rw [show listMax [(42000 : ℚ)] = 42000 from rfl, hc]
    norm_num
  refine ⟨hy, ?_⟩
  unfold stackedTicks
  rw [hy]
  decide

theorem roi_ymax_ge (dm : ℚ) : (40000 : ℤ) ≤ roiYmax dm := by
  unfold roiYmax
  split_ifs with h
  · norm_num
  · push_neg at h
    have h8 : (8 : ℤ) < ⌈dm / 5000⌉ := by
      rw [Int.lt_ceil, lt_div_iff₀ (by norm_num)]
      push_cast
      linarith
    linarith

theorem roi_ymax_dvd (dm : ℚ) : (5000 : ℤ) ∣ roiYmax dm := by
  unfold roiYmax
  split_ifs
  · norm_num
  · exact dvd_mul_left 5000 _

theorem roi_ticks_mem (dm : ℚ) (z : ℤ) :
    z ∈ roiTickvals (roiYmax dm) ↔ 10000 ≤ z ∧ z ≤ roiYmax dm ∧ (5000 : ℤ) ∣ z := by
  have hge : (10000 : ℤ) ≤ roiYmax dm := le_trans (by norm_num) (roi_ymax_ge dm)
  have hdvd : (5000 : ℤ) ∣ roiYmax dm - 10000 :=
    dvd_sub (roi_ymax_dvd dm) (by norm_num)
  have hiff := mem_pyRange_dvd 10000 5000 (roiYmax dm) z (by norm_num) hge hdvd
  unfold roiTickvals roiYmin
  rw [hiff]
  constructor
  · rintro ⟨ha, hb, hc⟩
    exact ⟨ha, hb, by omega⟩
  · rintro ⟨ha, hb, hc⟩
    exact ⟨ha, hb, by omega⟩

/-- C4: for nonempty actual and forecast ROI series the axis maximum is
`40000` when the data maximum is at most `40000` and `⌈max/5000⌉*5000`
otherwise, the minimum is fixed at `10000`, and the ticks are exactly
the multiples of `5000` from `10000` to `ymax`; data max `35000` gives
`ymax = 40000` and data max `52000` gives `ymax = 55000`. -/
theorem roi_axis (roiVals fcstVals : List ℚ) (h1 : roiVals ≠ []) (h2 : fcstVals ≠ []) :
    ∃ dm : ℚ, roiDataMax roiVals fcstVals = some dm ∧
      (dm ≤ 40000 → roiYmax dm = 40000) ∧
      (40000 < dm → roiYmax dm = ⌈dm / 5000⌉ * 5000) ∧
      roiYmin = 10000 ∧
      (∀ z : ℤ, z ∈ roiTickvals (roiYmax dm) ↔
        10000 ≤ z ∧ z ≤ roiYmax dm ∧ (5000 : ℤ) ∣ z) ∧
      roiYmax 35000 = 40000 ∧ roiYmax 52000 = 55000 := by
  refine ⟨max (max (listMax roiVals) (listMax fcstVals)) (roiVals.getLast h1),
    ?_, ?_, ?_, rfl, fun z => roi_ticks_mem _ z, ?_, ?_⟩
  · unfold roiDataMax
    rw [List.getLast?_eq_getLast roiVals h1]
    rfl
  · intro h
    unfold roiYmax
    rw [if_pos h]
  · intro h
    unfold roiYmax
    rw [if_neg (not_le.mpr h)]
  · unfold roiYmax
    rw [if_pos (by norm_num)]
  · have hc : (⌈(52000 : ℚ) / 5000⌉ : ℤ) = 11 := by norm_num [Int.ceil_eq_iff]
    unfold roiYmax
    rw [if_neg (by norm_num), hc]
    norm_num

/-- Witness for C4 at the singleton series `[52000]` and `[52000]`. -/
theorem roi_axis_witness :
    roiDataMax [(52000 : ℚ)] [(52000 : ℚ)] = some 52000 ∧ roiYmax 52000 = 55000 := by
  obtain ⟨dm, -, -, -, -, -, -, h7⟩ :=
    roi_axis [(52000 : ℚ)] [(52000 : ℚ)] (by simp) (by simp)
  refine ⟨?_, h7⟩
  unfold roiDataMax
  simp [listMax]

/-- C5: for a nonempty actuals series, the rendered forecast series is
the last actual point consed onto the forecast points, so it has length
`forecast length + 1` and starts at the last actual point. -/
theorem forecast_join (roi fcst : List (String × ℚ)) (h : roi ≠ []) :
    renderedForecast roi fcst = some (roi.getLast h :: fcst) ∧
    ∀ s, renderedForecast roi fcst = some s →
      s.length = fcst.length + 1 ∧ s.head? = some (roi.getLast h) := by
  have hm : (roi.map Prod.fst).getLast? = some (roi.getLast h).1 := by
    simp [List.getLast?_map, List.getLast?_eq_getLast roi h]
  have hv : (roi.map Prod.snd).getLast? = some (roi.getLast h).2 := by
    simp [List.getLast?_map, List.getLast?_eq_getLast roi h]
  have hmain : renderedForecast roi fcst = some (roi.getLast h :: fcst) := by
    unfold renderedForecast
    rw [hm, hv]
    simp [List.zip_map']
  refine ⟨hmain, ?_⟩
  intro s hs
  rw [hmain] at hs
  injection hs with hs
  subst hs
  exact ⟨by simp, rfl⟩

/-- Witness for C5 at the example from the spec: last actual point
`("Mar 2023", 12000)`, forecast `[("Apr 2023", 21000)]`. -/
theorem forecast_join_witness :
    renderedForecast [("Mar 2023", (12000 : ℚ))] [("Apr 2023", 21000)] =
      some [("Mar 2023", 12000), ("Apr 2023", 21000)] := by
  have h := (forecast_join [("Mar 2023", (12000 : ℚ))] [("Apr 2023", 21000)]
    (by simp)).1
  rw [h]
  rfl

/-- C6: the donut remainder is `|prev - current|`, except that a zero
remainder is replaced by `max(current * 0.05, 1)`; for
`current = prev = 100` the remainder is `5`. -/
theorem donut_remainder_spec (current prev : ℚ) :
    (|prev - current| ≠ 0 → donutRemainder current prev = |prev - current|) ∧
    (|prev - current| = 0 →
      donutRemainder current prev = max (current * 0.05) 1) ∧
    donutRemainder 100 100 = 5 := by
  refine ⟨fun h => by unfold donutRemainder; rw [if_neg h],
    fun h => by unfold donutRemainder; rw [if_pos h], ?_⟩
  have h0 : |(100 : ℚ) - 100| = 0 := by norm_num
  unfold donutRemainder
  rw [if_pos h0]
  norm_num

/-- Witness for C6 at `(100, 100)` (degenerate case) and `(100, 80)`
(regular case). -/
theorem donut_remainder_spec_witness :
    donutRemainder 100 100 = 5 ∧ donutRemainder 100 80 = 20 := by
  refine ⟨(donut_remainder_spec 100 100).2.2, ?_⟩
  have h := (donut_remainder_spec 100 80).1 (by norm_num)
  rw [h]
  norm_num

/-- C7 counterexample: with `current = prev = -1`, the slice-value pair
handed to the donut trace contains `-1`, which is not strictly
positive, so the pair does not always consist of two strictly positive
values. -/
theorem donut_values_cex : ¬ (∀ x ∈ donutValues (-1 : ℚ) (-1), 0 < x) := by
  intro hall
  have h1 : (-1 : ℚ) ∈ donutValues (-1) (-1) := by simp [donutValues]
  linarith [hall (-1) h1]

/-- C7 amended: the remainder slice is strictly positive for every
input; the current slice is passed through unchanged, so both slice
values are strictly positive whenever `current` itself is strictly
positive. -/
theorem donut_values_positive (current prev : ℚ) :
    0 < donutRemainder current prev ∧
    (0 < current → ∀ x ∈ donutValues current prev, 0 < x) := by
  have hrem : 0 < donutRemainder current prev := by
    unfold donutRemainder
    split_ifs with h
    · have h1 : (1 : ℚ) ≤ max (current * 0.05) 1 := le_max_right _ _
      linarith
    · exact lt_of_le_of_ne (abs_nonneg _) (Ne.symm h)
  refine ⟨hrem, fun hc x hx => ?_⟩
  simp only [donutValues, List.mem_cons, List.not_mem_nil, or_false] at hx
  rcases hx with rfl | rfl
  · exact hc
  · exact hrem

/-- Witness for C7 (amended) at `current = prev = 100`. -/
theorem donut_values_positive_witness :
    ∀ x ∈ donutValues (100 : ℚ) 100, 0 < x :=
  (donut_values_positive 100 100).2 (by norm_num)

/-- C8: the currency formatters truncate toward zero:
`fmtd_signed(-1234.9) = "-$1,234"`, `fmtd_signed(0) = "$0"`,
`fmtd(1234.9) = "$1,234"`; in general `fmtd_signed` prefixes `-`
exactly when the input is negative and otherwise formats the
absolute value of the truncated input like `fmtd`. -/
theorem fmt_currency_spec :
    fmtd_signed (-12349 / 10 : ℚ) = "-$1,234" ∧
    fmtd_signed 0 = "$0" ∧
    fmtd (12349 / 10 : ℚ) = "$1,234" ∧
    ∀ v : ℚ, fmtd_signed v =
      (if v < 0 then "-" else "") ++ fmtd (((pyInt v).natAbs : ℕ) : ℚ) := by
  have hneg : pyInt (-12349 / 10 : ℚ) = -1234 := by
    unfold pyInt
    rw [if_neg (by norm_num)]
    norm_num [Int.ceil_eq_iff]
  have hzero : pyInt 0 = 0 := by
    unfold pyInt
    rw [if_pos le_rfl]
    exact Int.floor_zero
  have hpos : pyInt (12349 / 10 : ℚ) = 1234 := by
    unfold pyInt
    rw [if_pos (by norm_num)]
    norm_num [Int.floor_eq_iff]
  refine ⟨?_, ?_, ?_, ?_⟩
  · unfold fmtd_signed
    rw [hneg, if_pos (by norm_num)]
    rfl
  · unfold fmtd_signed
    rw [hzero, if_neg (by norm_num)]
    rfl
  · unfold fmtd
    rw [hpos, if_neg (by norm_num)]
    rfl
  · intro v
    unfold fmtd_signed fmtd
    rw [pyInt_natCast]
    rw [if_neg (not_lt.mpr (Int.natCast_nonneg _))]
    rw [Int.natAbs_ofNat]
    rw [str_empty_append]

/-- C9: the generator's output tables are identical for any two seeds:
the seed has no effect on the generated data. -/
theorem dataGenMain_seed_independent (s1 s2 : ℤ) :
    dataGenMain s1 = dataGenMain s2 := rfl

/-- C10: for `-1 < v < 0`, `fmtd_signed v = "-$0"`: the sign comes
from the pre-truncation value while the magnitude truncates to `0`. -/
theorem fmtd_signed_small_neg (v : ℚ) (h1 : -1 < v) (h2 : v < 0) :
    fmtd_signed v = "-$0" := by
  have hp : pyInt v = 0 := by
    unfold pyInt
    rw [if_neg (not_le.mpr h2)]
    rw [Int.ceil_eq_iff]
    constructor
    · push_cast
      linarith
    · push_cast
      linarith
  unfold fmtd_signed
  rw [hp, if_pos h2]
  rfl

/-- Witness for C10 at `v = -1/2`. -/
theorem fmtd_signed_small_neg_witness : fmtd_signed (-1 / 2 : ℚ) = "-$0" :=
  fmtd_signed_small_neg (-1 / 2) (by norm_num) (by norm_num)
